import Mathlib

/-!
Verification of `scrape_gi_data.py` (glycowise).

A shallow embedding of the single source file `src/scrape_gi_data.py`.
The script downloads an HTML page, locates the table with id
`tablepress-1`, extracts header and body cell text, pads/truncates each
row to the header count, validates each row against the 13-field
`GIEntry` pydantic model, and writes a CSV file.

Modelling choices:
* The HTTP fetch and the parsed HTML document are external collaborators;
  a parsed document is modelled by `Soup`: the (possibly absent) target
  table with its (possibly absent/malformed) `thead` header texts and
  `tbody` rows (each row is the list of its `td` cell texts, already
  `get_text(strip=True)`-extracted), plus the count of `table` elements
  in the document.
* Python `dict(zip(column_names, data))` is modelled by keeping the pair
  list and looking keys up with last-occurrence-wins semantics
  (`pyLookup`), which is exactly how a Python dict built from a pair
  sequence answers lookups.
* pydantic's `GIEntry(**row_dict)` succeeds iff every one of the 13
  alias labels is a key of the dict; the `empty_to_none` before-validator
  turns a whitespace-only string into `""` (`emptyToNone`).
* `csv.DictWriter` output is modelled as a list of CSV records (one
  header record plus one record per entry); `sys.exit` codes and the
  stdout diagnostics are carried in `RunResult`.
* The output file is `some lines` only when the write succeeds; a
  failed or never-reached write leaves `none` (no committed output file).
-/

/-- Python `str.strip()` whitespace characters (space, tab, newline,
carriage return, vertical tab, form feed). -/
def isPySpace (c : Char) : Bool :=
  c = ' ' ∨ c = '\t' ∨ c = '\n' ∨ c = '\r' ∨ c = '\x0b' ∨ c = '\x0c'

/-- `not v.strip()` in Python: the string is empty or all-whitespace. -/
def isBlankStr (v : String) : Bool :=
  v.toList.all isPySpace

/-- `GIEntry.empty_to_none` (src/scrape_gi_data.py lines 32-37): a string
value that is empty or whitespace-only becomes `""`; anything else is
returned unchanged.  (All values reaching it here are strings.) -/
def emptyToNone (v : String) : String :=
  if isBlankStr v then "" else v

/-- The validated record: `GIEntry` (src/scrape_gi_data.py lines 17-30),
thirteen required string fields addressed by alias. -/
structure GIEntry where
  food_name : String
  gi : String
  manufacturer : String
  category : String
  country : String
  serving_size : String
  carbs_portion : String
  gl : String
  reference : String
  subjects_type : String
  time : String
  subjects_number : String
  year : String
  deriving Repr, DecidableEq, Inhabited

/-- The 13 alias labels of `GIEntry`, in field order. -/
def requiredAliases : List String :=
  ["Food Name", "GI", "Food Manufacturer", "Product Category",
   "Country of food production", "Serving Size (g)",
   "Carbohydrate portion (g) or Average Carbohydrate portion (g)", "GL",
   "Reference:", "Subjects type", "Time", "Subjects Number", "Year of test"]

/-- `entry.model_dump(by_alias=True)`: the record as an alias-keyed
mapping, in field order. -/
def modelDump (e : GIEntry) : List (String × String) :=
  [("Food Name", e.food_name), ("GI", e.gi),
   ("Food Manufacturer", e.manufacturer), ("Product Category", e.category),
   ("Country of food production", e.country),
   ("Serving Size (g)", e.serving_size),
   ("Carbohydrate portion (g) or Average Carbohydrate portion (g)", e.carbs_portion),
   ("GL", e.gl), ("Reference:", e.reference),
   ("Subjects type", e.subjects_type), ("Time", e.time),
   ("Subjects Number", e.subjects_number), ("Year of test", e.year)]

/-- Lookup in a Python dict built from a pair sequence: the value of the
LAST pair carrying the key wins (`dict(zip(...))` semantics). -/
def pyLookup (d : List (String × String)) (k : String) : Option String :=
  match d with
  | [] => none
  | (k0, v0) :: rest =>
    match pyLookup rest k with
    | some v => some v
    | none => if k0 = k then some v0 else none

/-- Row-length reconciliation (src/scrape_gi_data.py lines 97-102): pad a
short row with `""` on the right to the column count, truncate a long row
on the right to the column count. -/
def reconcile (ncols : Nat) (data : List String) : List String :=
  if data.length < ncols then
    data ++ List.replicate (ncols - data.length) ""
  else if data.length > ncols then
    data.take ncols
  else
    data

/-- `GIEntry(**row_dict)` (src/scrape_gi_data.py lines 106-109): pydantic
raises `ValidationError` iff some required alias label is missing from
the keys of `row_dict` (all supplied values are already strings here);
on success each field stores the `empty_to_none`-normalized value looked
up under its alias. -/
def validateRow (d : List (String × String)) : Option GIEntry :=
  if requiredAliases.all (fun a => (pyLookup d a).isSome) then
    some ⟨emptyToNone ((pyLookup d "Food Name").getD ""),
          emptyToNone ((pyLookup d "GI").getD ""),
          emptyToNone ((pyLookup d "Food Manufacturer").getD ""),
          emptyToNone ((pyLookup d "Product Category").getD ""),
          emptyToNone ((pyLookup d "Country of food production").getD ""),
          emptyToNone ((pyLookup d "Serving Size (g)").getD ""),
          emptyToNone ((pyLookup d "Carbohydrate portion (g) or Average Carbohydrate portion (g)").getD ""),
          emptyToNone ((pyLookup d "GL").getD ""),
          emptyToNone ((pyLookup d "Reference:").getD ""),
          emptyToNone ((pyLookup d "Subjects type").getD ""),
          emptyToNone ((pyLookup d "Time").getD ""),
          emptyToNone ((pyLookup d "Subjects Number").getD ""),
          emptyToNone ((pyLookup d "Year of test").getD "")⟩
  else none

/-- Stdout diagnostics of `main`, one constructor per `print` site that
the claims mention. -/
inductive LogEvent where
  | downloading
  | httpError
  | genericError
  | tableNotFound
  | otherTables (n : Nat)
  | noThead
  | foundColumns (cols : List String)
  | noTbody
  | processingRows (n : Nat)
  | validationFailed (ctx : String)
  | noValidEntries
  | savedEntries (n : Nat)
  | saveFailed
  deriving Repr, DecidableEq

/-- The target table as parsed HTML: `thead` is `some` header-cell texts
when present and well-formed (possibly zero `th` cells), `tbody` is
`some` rows, each row the list of its `td` cell texts. -/
structure HtmlTable where
  thead : Option (List String)
  tbody : Option (List (List String))
  deriving Repr, DecidableEq

/-- The parsed document: the table with id `tablepress-1` (if found) and
the total number of `table` elements in the document. -/
structure Soup where
  giTable : Option HtmlTable
  tableCount : Nat
  deriving Repr, DecidableEq

/-- Outcome of the HTTP GET: a parsed body, an `httpx.HTTPStatusError`,
or any other exception. -/
inductive FetchResult where
  | ok (soup : Soup)
  | httpStatusError
  | otherError
  deriving Repr, DecidableEq

/-- Result of one run of `main`: the stdout log, the `sys.exit` status
(0 on normal return), and the committed output file as CSV records
(`none` when no file was successfully written). -/
structure RunResult where
  log : List LogEvent
  exitCode : Nat
  output : Option (List String)
  deriving Repr, DecidableEq

/-- The row loop of `main` (src/scrape_gi_data.py lines 88-113): skip
rows without cells, reconcile, zip with the column names, validate; a
valid row appends its entry, an invalid row logs its first cell text (or
"Unknown" when the reconciled row is empty) and is skipped. -/
def processRows (cols : List String) : List (List String) → List GIEntry × List LogEvent
  | [] => ([], [])
  | r :: rs =>
    if r.isEmpty then processRows cols rs
    else
      let data := reconcile cols.length r
      match validateRow (cols.zip data) with
      | some e =>
        let rest := processRows cols rs
        (e :: rest.1, rest.2)
      | none =>
        let rest := processRows cols rs
        (rest.1, LogEvent.validationFailed (data.headD "Unknown") :: rest.2)

/-- CSV minimal quoting: a field containing a delimiter, quote or line
break is wrapped in doubled quotes. -/
def csvQuote (s : String) : String :=
  if s.toList.any (fun c => c = ',' ∨ c = '"' ∨ c = '\n' ∨ c = '\r') then
    "\"" ++ (s.toList.map (fun c => if c = '"' then "\"\"" else String.singleton c)).foldl (· ++ ·) "" ++ "\""
  else s

/-- One `DictWriter.writerow` record: each field name is looked up in the
dumped entry; a field name absent from the entry is filled with the
`restval` default `""`. -/
def recordLine (cols : List String) (e : GIEntry) : String :=
  String.intercalate "," (cols.map (fun h => csvQuote (((modelDump e).lookup h).getD "")))

/-- `DictWriter.writeheader` followed by `writerows` (src/scrape_gi_data.py
lines 123-125): one header record, then one record per entry in order. -/
def csvLines (cols : List String) (entries : List GIEntry) : List String :=
  String.intercalate "," (cols.map csvQuote) :: entries.map (recordLine cols)

/-- `main` (src/scrape_gi_data.py lines 39-129) as a function of the
fetch outcome and of whether the CSV write succeeds. -/
def runMain (fetch : FetchResult) (writeOk : Bool) : RunResult :=
  match fetch with
  | .httpStatusError => ⟨[.downloading, .httpError], 1, none⟩
  | .otherError => ⟨[.downloading, .genericError], 1, none⟩
  | .ok soup =>
    match soup.giTable with
    | none =>
      ⟨[.downloading, .tableNotFound] ++
         (if soup.tableCount > 0 then [.otherTables soup.tableCount] else []),
       1, none⟩
    | some table =>
      match table.thead with
      | none => ⟨[.downloading, .noThead], 1, none⟩
      | some cols =>
        match table.tbody with
        | none => ⟨[.downloading, .foundColumns cols, .noTbody], 1, none⟩
        | some rows =>
          let res := processRows cols rows
          let log0 := [.downloading, .foundColumns cols,
                       .processingRows rows.length] ++ res.2
          if res.1.isEmpty then
            ⟨log0 ++ [.noValidEntries], 0, none⟩
          else if writeOk then
            ⟨log0 ++ [.savedEntries res.1.length], 0, some (csvLines cols res.1)⟩
          else
            ⟨log0 ++ [.saveFailed], 1, none⟩

/-! ## Basic lemmas about the embedded operations -/

theorem reconcile_length (n : Nat) (d : List String) : (reconcile n d).length = n := by
  unfold reconcile
  split
  · simp; omega
  · split
    · simp; omega
    · omega

theorem pyLookup_eq_none (d : List (String × String)) (k : String)
    (h : k ∉ d.map Prod.fst) : pyLookup d k = none := by
  induction d with
  | nil => rfl
  | cons p rest ih =>
    simp only [List.map_cons, List.mem_cons, not_or] at h
    rw [pyLookup, ih h.2]
    simp [Ne.symm h.1]

theorem pyLookup_mem (d : List (String × String)) (k : String)
    (h : (pyLookup d k).isSome) : k ∈ d.map Prod.fst := by
  induction d with
  | nil => simp [pyLookup] at h
  | cons p rest ih =>
    rw [pyLookup] at h
    rcases hr : pyLookup rest k with _ | w
    · rw [hr] at h
      by_cases hk : p.1 = k
      · simp [hk]
      · simp [hk] at h
    · exact List.mem_cons_of_mem _ (ih (by rw [hr]; rfl))

theorem validateRow_lookup (d : List (String × String)) (e : GIEntry)
    (h : validateRow d = some e) :
    ∀ a ∈ requiredAliases, ∃ v, pyLookup d a = some v ∧
      (modelDump e).lookup a = some (emptyToNone v) := by
  unfold validateRow at h
  split at h
  · rename_i hall
    simp only [requiredAliases, List.all_cons, List.all_nil, Bool.and_eq_true,
      Option.isSome_iff_exists, and_true] at hall
    obtain ⟨⟨v1, h1⟩, ⟨v2, h2⟩, ⟨v3, h3⟩, ⟨v4, h4⟩, ⟨v5, h5⟩, ⟨v6, h6⟩, ⟨v7, h7⟩,
      ⟨v8, h8⟩, ⟨v9, h9⟩, ⟨v10, h10⟩, ⟨v11, h11⟩, ⟨v12, h12⟩, ⟨v13, h13⟩⟩ := hall
    obtain rfl := (Option.some.injEq _ _).mp h |>.symm
    intro a ha
    simp only [requiredAliases, List.mem_cons, List.not_mem_nil, or_false] at ha
    rcases ha with rfl | rfl | rfl | rfl | rfl | rfl | rfl | rfl | rfl | rfl | rfl | rfl | rfl
    · exact ⟨v1, h1, by simp +decide [modelDump, List.lookup, h1]⟩
    · exact ⟨v2, h2, by simp +decide [modelDump, List.lookup, h2]⟩
    · exact ⟨v3, h3, by simp +decide [modelDump, List.lookup, h3]⟩
    · exact ⟨v4, h4, by simp +decide [modelDump, List.lookup, h4]⟩
    · exact ⟨v5, h5, by simp +decide [modelDump, List.lookup, h5]⟩
    · exact ⟨v6, h6, by simp +decide [modelDump, List.lookup, h6]⟩
    · exact ⟨v7, h7, by simp +decide [modelDump, List.lookup, h7]⟩
    · exact ⟨v8, h8, by simp +decide [modelDump, List.lookup, h8]⟩
    · exact ⟨v9, h9, by simp +decide [modelDump, List.lookup, h9]⟩
    · exact ⟨v10, h10, by simp +decide [modelDump, List.lookup, h10]⟩
    · exact ⟨v11, h11, by simp +decide [modelDump, List.lookup, h11]⟩
    · exact ⟨v12, h12, by simp +decide [modelDump, List.lookup, h12]⟩
    · exact ⟨v13, h13, by simp +decide [modelDump, List.lookup, h13]⟩
  · exact absurd h (by simp)

theorem validateRow_none_of_missing (d : List (String × String)) (a : String)
    (ha : a ∈ requiredAliases) (hnone : pyLookup d a = none) :
    validateRow d = none := by
  unfold validateRow
  split
  · rename_i hall
    rw [List.all_eq_true] at hall
    have := hall a ha
    rw [hnone] at this
    simp at this
  · rfl

theorem pyLookup_last (d : List (String × String)) (j : Nat) (hj : j < d.length)
    (hlast : ∀ i, (hi : i < d.length) → j < i →
      (d.get ⟨i, hi⟩).1 ≠ (d.get ⟨j, hj⟩).1) :
    pyLookup d (d.get ⟨j, hj⟩).1 = some (d.get ⟨j, hj⟩).2 := by
  induction d generalizing j with
  | nil => simp at hj
  | cons p rest ih =>
    match j with
    | 0 =>
      simp only [List.get]
      have hnone : pyLookup rest p.1 = none := by
        apply pyLookup_eq_none
        intro hmem
        rw [List.mem_map] at hmem
        obtain ⟨q, hq, hq1⟩ := hmem
        rw [List.mem_iff_get] at hq
        obtain ⟨⟨i, hi⟩, rfl⟩ := hq
        have hi1 : i + 1 < (p :: rest).length := by simp; omega
        have hcontra := hlast (i + 1) hi1 (Nat.succ_pos i)
        simp only [List.get] at hcontra
        exact hcontra hq1
      rw [pyLookup, hnone]
      simp
    | j' + 1 =>
      have hj' : j' < rest.length := by simpa using hj
      simp only [List.get]
      have hrest : pyLookup rest (rest.get ⟨j', hj'⟩).1 =
          some (rest.get ⟨j', hj'⟩).2 := by
        apply ih
        intro i hi hji
        have hi1 : i + 1 < (p :: rest).length := by simp; omega
        have hcontra := hlast (i + 1) hi1 (by omega)
        simpa only [List.get] using hcontra
      rw [pyLookup, hrest]

theorem processRows_entries_nil (cols : List String) (rows : List (List String))
    (a : String) (ha : a ∈ requiredAliases) (hnot : a ∉ cols) :
    (processRows cols rows).1 = [] := by
  induction rows with
  | nil => rfl
  | cons r rs ih =>
    rw [processRows]
    by_cases hr : r.isEmpty
    · simp [hr, ih]
    · have hlen : cols.length ≤ (reconcile cols.length r).length :=
        le_of_eq (reconcile_length cols.length r).symm
      have hmapfst : (cols.zip (reconcile cols.length r)).map Prod.fst = cols :=
        List.map_fst_zip _ _ hlen
      have hnone : pyLookup (cols.zip (reconcile cols.length r)) a = none :=
        pyLookup_eq_none _ _ (by rw [hmapfst]; exact hnot)
      have hv : validateRow (cols.zip (reconcile cols.length r)) = none :=
        validateRow_none_of_missing _ a ha hnone
      simp [hr, hv, ih]

/-! ## The claims -/

/-- Claim C1: every reconciled body row has exactly as many entries as
there are header columns; positions still covered by the extracted cells
keep their cell text (so a long row is truncated from the right), and
positions beyond the extracted cells hold the empty string (so a short
row is right-padded with empty strings). -/
theorem claim_C1_row_reconciliation (n : Nat) (d : List String) :
    (reconcile n d).length = n ∧
    ∀ i : Nat, i < n →
      (reconcile n d).getD i "" = if i < d.length then d.getD i "" else "" := by
  refine ⟨reconcile_length n d, ?_⟩
  intro i hi
  unfold reconcile
  split
  · rename_i hlt
    by_cases hd : i < d.length
    · simp [hd, List.getD, List.getElem?_append_left]
    · have h1 : d.length ≤ i := Nat.le_of_not_lt hd
      have h2 : i - d.length < n - d.length := by omega
      simp [hd, List.getD, List.getElem?_append_right h1, h2]
  · split
    · rename_i h1 h2
      have hd : i < d.length := by omega
      simp [hd, List.getD, List.getElem?_take, hi]
    · rename_i h1 h2
      have hd : i < d.length := by omega
      simp [hd]

/-- Witness for C1 at a short row (padded) and a long row (truncated). -/
theorem claim_C1_witness :
    ((reconcile 3 ["a"]).length = 3 ∧
      (reconcile 3 ["a"]).getD 2 "" = if 2 < (["a"] : List String).length then (["a"] : List String).getD 2 "" else "") ∧
    (reconcile 1 ["a", "b"]).getD 0 "" = if 0 < (["a", "b"] : List String).length then (["a", "b"] : List String).getD 0 "" else "" :=
  ⟨⟨(claim_C1_row_reconciliation 3 ["a"]).1,
    (claim_C1_row_reconciliation 3 ["a"]).2 2 (by decide)⟩,
   (claim_C1_row_reconciliation 1 ["a", "b"]).2 0 (by decide)⟩

/-- Claim C2: a record produced by validation answers every one of the 13
alias labels with a present string value (never absent), and a field
whose raw input text is empty or whitespace-only is stored as `""`
(a non-blank raw value is stored unchanged). -/
theorem claim_C2_fields_present_blank_normalized (d : List (String × String))
    (e : GIEntry) (h : validateRow d = some e) :
    ∀ a ∈ requiredAliases, ∃ v w, pyLookup d a = some v ∧
      (modelDump e).lookup a = some w ∧
      (isBlankStr v = true → w = "") ∧ (isBlankStr v = false → w = v) := by
  intro a ha
  obtain ⟨v, hv, hw⟩ := validateRow_lookup d e h a ha
  refine ⟨v, emptyToNone v, hv, hw, ?_, ?_⟩ <;> intro hb <;> simp [emptyToNone, hb]

/-- Witness for C2: a row whose `GI` cell is whitespace-only validates to
a record whose `GI` field is the empty string. -/
theorem claim_C2_witness :
    ∃ v w,
      pyLookup (requiredAliases.zip ["Apple", " ", "x", "x", "x", "x", "x", "x", "x", "x", "x", "x", "x"]) "GI" = some v ∧
      (modelDump ⟨"Apple", "", "x", "x", "x", "x", "x", "x", "x", "x", "x", "x", "x"⟩).lookup "GI" = some w ∧
      (isBlankStr v = true → w = "") ∧ (isBlankStr v = false → w = v) :=
  claim_C2_fields_present_blank_normalized
    (requiredAliases.zip ["Apple", " ", "x", "x", "x", "x", "x", "x", "x", "x", "x", "x", "x"])
    ⟨"Apple", "", "x", "x", "x", "x", "x", "x", "x", "x", "x", "x", "x"⟩
    (by decide) "GI" (by decide)

/-- Claim C3: when N > 0 rows validate and the write succeeds, the output
CSV has exactly N+1 records: first the header record in discovered header
order, then one record per validated entry in processing order. -/
theorem claim_C3_csv_shape (soup : Soup) (t : HtmlTable) (cols : List String)
    (rows : List (List String))
    (h1 : soup.giTable = some t) (h2 : t.thead = some cols) (h3 : t.tbody = some rows)
    (hne : (processRows cols rows).1 ≠ []) :
    ∃ ls, (runMain (.ok soup) true).output = some ls ∧
      (runMain (.ok soup) true).exitCode = 0 ∧
      ls.length = (processRows cols rows).1.length + 1 ∧
      ls.headD "" = String.intercalate "," (cols.map csvQuote) ∧
      ∀ i, i < (processRows cols rows).1.length →
        ls.getD (i + 1) "" = recordLine cols ((processRows cols rows).1.getD i default) := by
  have hemp : (processRows cols rows).1.isEmpty = false := by
    simpa [List.isEmpty_iff] using hne
  refine ⟨csvLines cols (processRows cols rows).1, ?_, ?_, ?_, ?_, ?_⟩
  · simp [runMain, h1, h2, h3, hemp]
  · simp [runMain, h1, h2, h3, hemp]
  · simp [csvLines]
  · simp [csvLines]
  · intro i hi
    have hi' : i < ((processRows cols rows).1.map (recordLine cols)).length := by
      simpa using hi
    simp [csvLines, List.getD, List.getElem?_eq_getElem hi', List.getElem?_eq_getElem hi]

/-- Witness for C3: thirteen alias headers and one fully populated row
give a two-record CSV. -/
theorem claim_C3_witness :
    ∃ ls,
      (runMain (.ok ⟨some ⟨some requiredAliases, some [List.replicate 13 "v"]⟩, 1⟩) true).output = some ls ∧
      (runMain (.ok ⟨some ⟨some requiredAliases, some [List.replicate 13 "v"]⟩, 1⟩) true).exitCode = 0 ∧
      ls.length = (processRows requiredAliases [List.replicate 13 "v"]).1.length + 1 ∧
      ls.headD "" = String.intercalate "," (requiredAliases.map csvQuote) ∧
      ∀ i, i < (processRows requiredAliases [List.replicate 13 "v"]).1.length →
        ls.getD (i + 1) "" = recordLine requiredAliases ((processRows requiredAliases [List.replicate 13 "v"]).1.getD i default) :=
  claim_C3_csv_shape _ _ requiredAliases [List.replicate 13 "v"] rfl rfl rfl (by decide)

/-- Claim C4: with the table, header section and body section all found,
if zero rows validate the run exits with status 0, reports that no valid
entries were found, and writes no output file. -/
theorem claim_C4_soft_success (soup : Soup) (t : HtmlTable) (cols : List String)
    (rows : List (List String))
    (h1 : soup.giTable = some t) (h2 : t.thead = some cols) (h3 : t.tbody = some rows)
    (hzero : (processRows cols rows).1 = []) (w : Bool) :
    (runMain (.ok soup) w).exitCode = 0 ∧ (runMain (.ok soup) w).output = none ∧
    LogEvent.noValidEntries ∈ (runMain (.ok soup) w).log := by
  have hemp : (processRows cols rows).1.isEmpty = true := by
    simp [List.isEmpty_iff, hzero]
  refine ⟨?_, ?_, ?_⟩ <;> simp [runMain, h1, h2, h3, hemp]

/-- Witness for C4: a single-column table whose one row cannot satisfy
the 13-field schema. -/
theorem claim_C4_witness :
    (runMain (.ok ⟨some ⟨some ["A"], some [["x"]]⟩, 1⟩) true).exitCode = 0 ∧
    (runMain (.ok ⟨some ⟨some ["A"], some [["x"]]⟩, 1⟩) true).output = none ∧
    LogEvent.noValidEntries ∈ (runMain (.ok ⟨some ⟨some ["A"], some [["x"]]⟩, 1⟩) true).log :=
  claim_C4_soft_success _ _ ["A"] [["x"]] rfl rfl rfl (by decide) true

/-- Counterexample to claim C5: in a document with no table element at
all, the target table is absent yet the run prints no table count (the
diagnostic is only printed when at least one table exists), so the claim
"the run reports how many other table elements exist" fails there. -/
theorem claim_C5_counterexample :
    (Soup.mk none 0).giTable = none ∧
    (runMain (.ok (Soup.mk none 0)) true).log =
      [LogEvent.downloading, LogEvent.tableNotFound] ∧
    (∀ n : Nat, LogEvent.otherTables n ∉ (runMain (.ok (Soup.mk none 0)) true).log) ∧
    (runMain (.ok (Soup.mk none 0)) true).exitCode = 1 ∧
    (runMain (.ok (Soup.mk none 0)) true).output = none := by
  refine ⟨rfl, rfl, ?_, rfl, rfl⟩
  intro n hmem
  have hlog : (runMain (.ok (Soup.mk none 0)) true).log =
      [LogEvent.downloading, LogEvent.tableNotFound] := rfl
  rw [hlog] at hmem
  simp at hmem

/-- Claim C5 (amended): if the target table is absent the run terminates
with exit code 1 and produces no output file, and — whenever the document
contains at least one table element — reports how many table elements
exist. -/
theorem claim_C5_table_not_found (soup : Soup) (h : soup.giTable = none) (w : Bool) :
    (runMain (.ok soup) w).exitCode = 1 ∧
    (runMain (.ok soup) w).output = none ∧
    (0 < soup.tableCount →
      LogEvent.otherTables soup.tableCount ∈ (runMain (.ok soup) w).log) := by
  refine ⟨?_, ?_, ?_⟩ <;> simp [runMain, h]

/-- Witness for the amended C5 at a document holding two stray tables. -/
theorem claim_C5_witness :
    (runMain (.ok (Soup.mk none 2)) true).exitCode = 1 ∧
    (runMain (.ok (Soup.mk none 2)) true).output = none ∧
    (0 < (Soup.mk none 2).tableCount →
      LogEvent.otherTables (Soup.mk none 2).tableCount ∈ (runMain (.ok (Soup.mk none 2)) true).log) :=
  claim_C5_table_not_found (Soup.mk none 2) rfl true

/-- Claim C6: every fatal error aborts the run with exit code 1 and no
output file — a fetch failure (HTTP status or other exception), an
absent target table, a missing/malformed thead, a missing/malformed
tbody, and a failed write all do so; only row-level validation errors
are recovered: a run that reaches the rows and whose write succeeds
exits 0 whenever at least one row validates, whatever per-row failures
occurred; and in general a run that exits non-zero has produced no
output file. -/
theorem claim_C6_fatal_errors_abort (w : Bool) :
    (∀ f, f = FetchResult.httpStatusError ∨ f = FetchResult.otherError →
      (runMain f w).exitCode = 1 ∧ (runMain f w).output = none) ∧
    (∀ s : Soup, s.giTable = none →
      (runMain (.ok s) w).exitCode = 1 ∧ (runMain (.ok s) w).output = none) ∧
    (∀ s t, s.giTable = some t → t.thead = none →
      (runMain (.ok s) w).exitCode = 1 ∧ (runMain (.ok s) w).output = none) ∧
    (∀ s t cols, s.giTable = some t → t.thead = some cols → t.tbody = none →
      (runMain (.ok s) w).exitCode = 1 ∧ (runMain (.ok s) w).output = none) ∧
    (∀ s t cols rows, s.giTable = some t → t.thead = some cols →
      t.tbody = some rows → (processRows cols rows).1 ≠ [] →
      (runMain (.ok s) false).exitCode = 1 ∧ (runMain (.ok s) false).output = none) ∧
    (∀ s t cols rows, s.giTable = some t → t.thead = some cols →
      t.tbody = some rows → (processRows cols rows).1 ≠ [] →
      (runMain (.ok s) true).exitCode = 0) ∧
    (∀ f, (runMain f w).exitCode ≠ 0 → (runMain f w).output = none) := by
  refine ⟨?_, ?_, ?_, ?_, ?_, ?_, ?_⟩
  · rintro f (rfl | rfl) <;> exact ⟨rfl, rfl⟩
  · intro s h
    constructor <;> simp [runMain, h]
  · intro s t h1 h2
    constructor <;> simp [runMain, h1, h2]
  · intro s t cols h1 h2 h3
    constructor <;> simp [runMain, h1, h2, h3]
  · intro s t cols rows h1 h2 h3 hne
    have hemp : (processRows cols rows).1.isEmpty = false := by
      simpa [List.isEmpty_iff] using hne
    constructor <;> simp [runMain, h1, h2, h3, hemp]
  · intro s t cols rows h1 h2 h3 hne
    have hemp : (processRows cols rows).1.isEmpty = false := by
      simpa [List.isEmpty_iff] using hne
    simp [runMain, h1, h2, h3, hemp]
  · intro f
    rcases f with s | _ | _
    · rcases s with ⟨tb, c⟩
      rcases tb with _ | t
      · exact fun _ => rfl
      · rcases t with ⟨th, bd⟩
        rcases th with _ | cols
        · exact fun _ => rfl
        · rcases bd with _ | rows
          · exact fun _ => rfl
          · by_cases hemp : (processRows cols rows).1.isEmpty
            · intro hne
              exact absurd (by simp [runMain, hemp]) hne
            · rcases w with _ | _
              · intro _
                simp [runMain, Bool.not_eq_true] at hemp ⊢
                simp [hemp]
              · intro hne
                refine absurd ?_ hne
                simp [runMain, Bool.not_eq_true] at hemp ⊢
                simp [hemp]
    · exact fun _ => rfl
    · exact fun _ => rfl

/-- Witness for C6: an HTTP status failure, an absent table, and a failed
write each abort with exit 1 and no output, while the same document whose
write succeeds exits 0. -/
theorem claim_C6_witness :
    ((runMain FetchResult.httpStatusError true).exitCode = 1 ∧
      (runMain FetchResult.httpStatusError true).output = none) ∧
    ((runMain (.ok (Soup.mk none 0)) true).exitCode = 1 ∧
      (runMain (.ok (Soup.mk none 0)) true).output = none) ∧
    ((runMain (.ok (Soup.mk (some (HtmlTable.mk (some requiredAliases) (some [List.replicate 13 "v"]))) 1)) false).exitCode = 1 ∧
      (runMain (.ok (Soup.mk (some (HtmlTable.mk (some requiredAliases) (some [List.replicate 13 "v"]))) 1)) false).output = none) ∧
    (runMain (.ok (Soup.mk (some (HtmlTable.mk (some requiredAliases) (some [List.replicate 13 "v"]))) 1)) true).exitCode = 0 :=
  ⟨(claim_C6_fatal_errors_abort true).1 FetchResult.httpStatusError (Or.inl rfl),
   (claim_C6_fatal_errors_abort true).2.1 (Soup.mk none 0) rfl,
   (claim_C6_fatal_errors_abort false).2.2.2.2.1 _ _ requiredAliases
     [List.replicate 13 "v"] rfl rfl rfl (by decide),
   (claim_C6_fatal_errors_abort true).2.2.2.2.2.1 _ _ requiredAliases
     [List.replicate 13 "v"] rfl rfl rfl (by decide)⟩

theorem reconcile_getD (n : Nat) (d : List String) (i : Nat) (hi : i < n) :
    (reconcile n d).getD i "" = if i < d.length then d.getD i "" else "" := by
  unfold reconcile
  split
  · rename_i hlt
    by_cases hd : i < d.length
    · simp [hd, List.getD, List.getElem?_append_left]
    · have h1 : d.length ≤ i := Nat.le_of_not_lt hd
      have h2 : i - d.length < n - d.length := by omega
      simp [hd, List.getD, List.getElem?_append_right h1, h2]
  · split
    · rename_i h1 h2
      have hd : i < d.length := by omega
      simp [hd, List.getD, List.getElem?_take, hi]
    · rename_i h1 h2
      have hd : i < d.length := by omega
      simp [hd]

/-- Claim C7: when two header columns carry the same label and the later
one is the rightmost column with that label, the positional
header-to-value mapping answers that label with the later column's value. -/
theorem claim_C7_duplicate_header_last_wins (cols data : List String) (i j : Nat)
    (_hij : i < j) (hj : j < cols.length) (hjd : j < data.length)
    (_hdup : cols.getD i "" = cols.getD j "")
    (hlast : ∀ k, k < cols.length → j < k → cols.getD k "" ≠ cols.getD j "") :
    pyLookup (cols.zip data) (cols.getD j "") = some (data.getD j "") := by
  have hjz : j < (cols.zip data).length := by
    rw [List.length_zip]
    omega
  have hzj : (cols.zip data).get ⟨j, hjz⟩ = (cols.get ⟨j, hj⟩, data.get ⟨j, hjd⟩) := by
    simp only [List.get_eq_getElem]
    exact List.getElem_zip
  have hcg : cols.getD j "" = cols.get ⟨j, hj⟩ := by
    simp [List.getD, List.getElem?_eq_getElem hj]
  have hdg : data.getD j "" = data.get ⟨j, hjd⟩ := by
    simp [List.getD, List.getElem?_eq_getElem hjd]
  rw [hcg, hdg]
  have hmain := pyLookup_last (cols.zip data) j hjz ?hl
  · rw [hzj] at hmain
    exact hmain
  case hl =>
    intro m hm hjm
    have hmc : m < cols.length := by
      rw [List.length_zip] at hm
      omega
    have hmd : m < data.length := by
      rw [List.length_zip] at hm
      omega
    have hzm : (cols.zip data).get ⟨m, hm⟩ = (cols.get ⟨m, hmc⟩, data.get ⟨m, hmd⟩) := by
      simp only [List.get_eq_getElem]
      exact List.getElem_zip
    rw [hzm, hzj]
    have hne := hlast m hmc hjm
    simpa [List.getD, List.getElem?_eq_getElem hmc, List.getElem?_eq_getElem hj] using hne

/-- Witness for C7: headers `A, B, A` answer `A` with the third column's
value. -/
theorem claim_C7_witness :
    pyLookup ((["A", "B", "A"] : List String).zip ["1", "2", "3"])
        ((["A", "B", "A"] : List String).getD 2 "") =
      some ((["1", "2", "3"] : List String).getD 2 "") :=
  claim_C7_duplicate_header_last_wins ["A", "B", "A"] ["1", "2", "3"] 0 2
    (by decide) (by decide) (by decide) (by decide) (by decide)

/-- Claim C8: a non-empty row that fails schema validation contributes no
record, is logged with its first reconciled cell (or "Unknown"), and the
remaining rows are processed exactly as if the failing row were absent;
in particular the failing row never changes the run's exit status. -/
theorem claim_C8_row_failure_recovered (cols : List String) (r : List String)
    (rs : List (List String)) (hr : r ≠ [])
    (hfail : validateRow (cols.zip (reconcile cols.length r)) = none) :
    processRows cols (r :: rs) =
      ((processRows cols rs).1,
        LogEvent.validationFailed ((reconcile cols.length r).headD "Unknown")
          :: (processRows cols rs).2) ∧
    ∀ (c : Nat) (w : Bool),
      (runMain (.ok ⟨some ⟨some cols, some (r :: rs)⟩, c⟩) w).exitCode =
        (runMain (.ok ⟨some ⟨some cols, some rs⟩, c⟩) w).exitCode := by
  have hre : r.isEmpty = false := by
    simp [List.isEmpty_iff, hr]
  have hp : processRows cols (r :: rs) =
      ((processRows cols rs).1,
        LogEvent.validationFailed ((reconcile cols.length r).headD "Unknown")
          :: (processRows cols rs).2) := by
    rw [processRows]
    simp [hre, hfail]
  refine ⟨hp, ?_⟩
  intro c w
  by_cases hA : (processRows cols rs).1.isEmpty <;> rcases w <;>
    simp [runMain, hp, hA]

/-- Witness for C8: a one-column table cannot satisfy the schema, so its
row is dropped and logged while the run still exits softly. -/
theorem claim_C8_witness :
    processRows ["A"] [["x"]] =
      ((processRows ["A"] []).1,
        LogEvent.validationFailed ((reconcile (["A"] : List String).length ["x"]).headD "Unknown")
          :: (processRows ["A"] []).2) ∧
    ∀ (c : Nat) (w : Bool),
      (runMain (.ok ⟨some ⟨some ["A"], some [["x"]]⟩, c⟩) w).exitCode =
        (runMain (.ok ⟨some ⟨some ["A"], some []⟩, c⟩) w).exitCode :=
  claim_C8_row_failure_recovered ["A"] ["x"] [] (by decide) (by decide)

/-- Counterexample to claim C9: with an empty header list, a body row
with one cell is truncated to the empty list, validation fails, and the
log really does fall back to "Unknown" — inside a full run whose fetch,
table, thead and tbody all succeed.  The fallback is therefore
reachable, refuting the claimed unreachability. -/
theorem claim_C9_counterexample :
    (["x"] : List String) ≠ [] ∧
    reconcile (List.length ([] : List String)) ["x"] = [] ∧
    LogEvent.validationFailed "Unknown" ∈
      (runMain (.ok ⟨some ⟨some [], some [["x"]]⟩, 1⟩) true).log := by decide

/-- Claim C9 (amended): whenever at least one header column exists, the
reconciled row of any row that reaches validation (hence has at least one
cell) is non-empty and its logged first entry is the row's first cell
text, so the "Unknown" fallback is unreachable except in the
zero-header-column case. -/
theorem claim_C9_first_cell_context (cols r : List String)
    (hc : cols ≠ []) (hr : r ≠ []) :
    reconcile cols.length r ≠ [] ∧
    (reconcile cols.length r).headD "Unknown" = r.headD "Unknown" := by
  have hcl : 0 < cols.length := List.length_pos.mpr hc
  have hlen := reconcile_length cols.length r
  have hne : reconcile cols.length r ≠ [] := by
    intro hnil
    rw [hnil] at hlen
    simp at hlen
    omega
  refine ⟨hne, ?_⟩
  have hg := reconcile_getD cols.length r 0 hcl
  rcases hrec : reconcile cols.length r with _ | ⟨y, ys⟩
  · exact absurd hrec hne
  · rcases r with _ | ⟨x, xs⟩
    · exact absurd rfl hr
    · rw [hrec] at hg
      simpa using hg

/-- Witness for the amended C9. -/
theorem claim_C9_witness :
    reconcile (["A"] : List String).length ["x", "y"] ≠ [] ∧
    (reconcile (["A"] : List String).length ["x", "y"]).headD "Unknown" =
      (["x", "y"] : List String).headD "Unknown" :=
  claim_C9_first_cell_context ["A"] ["x", "y"] (by decide) (by decide)

/-- Claim C10: if the scraped header list lacks one of the 13 required
alias labels, every body row fails validation, so the run ends in the
soft-success state: exit status 0 and no output file. -/
theorem claim_C10_missing_alias_soft_success (soup : Soup) (t : HtmlTable)
    (cols : List String) (rows : List (List String)) (a : String)
    (h1 : soup.giTable = some t) (h2 : t.thead = some cols) (h3 : t.tbody = some rows)
    (ha : a ∈ requiredAliases) (hmiss : a ∉ cols) (w : Bool) :
    (runMain (.ok soup) w).exitCode = 0 ∧ (runMain (.ok soup) w).output = none := by
  have hnil := processRows_entries_nil cols rows a ha hmiss
  have hemp : (processRows cols rows).1.isEmpty = true := by
    simp [List.isEmpty_iff, hnil]
  constructor <;> simp [runMain, h1, h2, h3, hemp]

/-- Witness for C10: a table whose only header is `A` lacks the `GI`
alias, so its run exits 0 without output. -/
theorem claim_C10_witness :
    (runMain (.ok ⟨some ⟨some ["A"], some [["x"], ["y", "z"]]⟩, 1⟩) true).exitCode = 0 ∧
    (runMain (.ok ⟨some ⟨some ["A"], some [["x"], ["y", "z"]]⟩, 1⟩) true).output = none :=
  claim_C10_missing_alias_soft_success _ _ ["A"] [["x"], ["y", "z"]] "GI"
    rfl rfl rfl (by decide) (by decide) true
